import Mathlib

/-!
Shallow embedding of the realtime-communication and session-resilience layer of the
LumenAI frontend, together with proofs about it.

Embedded source files:
* the `useWebSocket` hook (connection manager + subscription dispatcher):
  `connect`, `disconnect`, `send`, `subscribe`, the `ws.onmessage` dispatch loop,
  and the `ws.onclose` reconnection logic;
* the `useStreamingChat` hook (stream session coordinator):
  `handleStreamStart`, `handleStreamChunk`, `handleStreamEnd`, `handleStreamError`,
  `sendMessage`;
* `lib/apiClient.ts` (resilient request pipeline): the response interceptor's
  single-flight token-refresh algorithm (`isRefreshing`, `refreshSubscribers`,
  `subscribeTokenRefresh`, `onTokenRefreshed`);
* `streamChatResponse` in `StreamingChatBox.tsx` (chunked-HTTP stream decoder).

The reference environment is a single-threaded event loop: each callback runs
atomically between suspension points, so stateful code is embedded as explicit
state-passing functions and event sequences as folds over those functions.
-/

namespace LumenAI

/-! ### Subscription dispatcher

From the `useWebSocket` hook: `messageHandlersRef` is a map from message type to a
set of handlers (iterated in insertion order); `ws.onmessage` looks up the handlers
for `message.type`, invokes each, then looks up the handlers for the wildcard type
`"*"` and invokes each.  The whole dispatch is wrapped in a single try/catch (the
one that also guards `JSON.parse`), and there is no per-handler try/catch: an
exception thrown by a handler aborts the enclosing `forEach` and is swallowed by
that outer catch.

A handler is modelled by an id together with whether invoking it on the dispatched
message throws. -/

structure Handler where
  id : Nat
  throws : Bool
deriving DecidableEq

/-- Invoke the handlers of one group (one `Set` of the map) in order, tagging each
invocation with the group tag; stop at the first handler that throws.  Returns the
invocation trace and whether a throw escaped the group. -/
def runGroup (tag : Bool) : List Handler → List (Bool × Nat) × Bool
  | [] => ([], false)
  | h :: t =>
    if h.throws then ([(tag, h.id)], true)
    else
      let r := runGroup tag t
      ((tag, h.id) :: r.1, r.2)

/-- The `ws.onmessage` dispatch over the two handler groups: the type-specific
group (tag `false`) runs first; the wildcard group (tag `true`) runs only if no
type-specific handler threw (a throw propagates out of the first `forEach` to the
enclosing catch, skipping the wildcard lookup). -/
def dispatchLists (typeHs wildHs : List Handler) : List (Bool × Nat) :=
  let r := runGroup false typeHs
  if r.2 then r.1 else r.1 ++ (runGroup true wildHs).1

/-- Lookup in `messageHandlersRef` (`Map.get`): first entry with the given type,
else no handlers. -/
def lookupSubs : List (String × List Handler) → String → List Handler
  | [], _ => []
  | (t, hs) :: rest, ty => if t = ty then hs else lookupSubs rest ty

/-- Full `ws.onmessage` dispatch: handlers registered for the message's type, then
wildcard (`"*"`) handlers. -/
def onMessageDispatch (subs : List (String × List Handler)) (msgType : String) :
    List (Bool × Nat) :=
  dispatchLists (lookupSubs subs msgType) (lookupSubs subs "*")

/-! ### Connection manager

From the `useWebSocket` hook.  `WSState` collects the React state
(`isConnected`, `isConnecting`, `connectionId`, `reconnectAttempts`), the refs
(`wsRef`, `heartbeatIntervalRef`, `reconnectTimeoutRef`), and an instrumentation
counter `socketsCreated` counting evaluations of `new WebSocket(...)`. -/

inductive SockState
  | connecting
  | opened
  | closed
deriving DecidableEq

structure WSState where
  isConnected : Bool
  isConnecting : Bool
  connectionId : Option String
  reconnectAttempts : Nat
  heartbeatActive : Bool
  reconnectPending : Bool
  lastError : Bool
  socket : Option SockState
  socketsCreated : Nat
deriving DecidableEq

/-- `connect()`: the only guard is `wsRef.current?.readyState === WebSocket.OPEN`;
when it does not fire, the hook sets `isConnecting`, clears the error, and
evaluates `new WebSocket(wsUrl)`, overwriting `wsRef.current`. -/
def connect (s : WSState) : WSState :=
  if s.socket = some SockState.opened then s
  else
    { s with
      isConnecting := true
      lastError := false
      socket := some SockState.connecting
      socketsCreated := s.socketsCreated + 1 }

/-- `ws.onopen`: connected, attempt counter reset, heartbeat started when the
configured interval is positive. -/
def onopen (heartbeatInterval : Nat) (s : WSState) : WSState :=
  { s with
    isConnected := true
    isConnecting := false
    lastError := false
    reconnectAttempts := 0
    heartbeatActive := decide (0 < heartbeatInterval)
    socket := some SockState.opened }

/-- `ws.onclose`: clears the connected flags and the heartbeat; if the close was
not clean and the attempt count read by the closure is below the maximum,
schedules a reconnection after the fixed interval (returned as `some interval`).

`capturedAttempts` is the value of `state.reconnectAttempts` that the `connect`
closure reads.  `connect` is memoized by `useCallback` with dependency list
`[url, token, reconnectInterval, maxReconnectAttempts, heartbeatInterval]`, which
omits `state`; the closure therefore sees the `state` of the render at which the
callback was created — for the whole lifetime of a mount this is the initial
render's value `0`, not the current counter (the current counter is a separate
field of `WSState`, updated through `setState(prev => ...)`). -/
def onclose (reconnectInterval maxAttempts capturedAttempts : Nat) (wasClean : Bool)
    (s : WSState) : WSState × Option Nat :=
  let s1 :=
    { s with
      isConnected := false
      isConnecting := false
      connectionId := none
      heartbeatActive := false
      socket := some SockState.closed }
  if !wasClean && capturedAttempts < maxAttempts then
    ({ s1 with reconnectPending := true }, some reconnectInterval)
  else (s1, none)

/-- The reconnect timer firing: `setState(prev => attempts + 1)` then `connect()`. -/
def reconnectFire (s : WSState) : WSState :=
  connect { s with reconnectAttempts := s.reconnectAttempts + 1, reconnectPending := false }

/-- `disconnect()`: cancel the reconnect timer, stop the heartbeat, close and drop
the socket, reset the state record. -/
def disconnect (s : WSState) : WSState :=
  { s with
    isConnected := false
    isConnecting := false
    connectionId := none
    reconnectAttempts := 0
    heartbeatActive := false
    reconnectPending := false
    lastError := false
    socket := none
    socketsCreated := s.socketsCreated }

/-- `send(message)`: `false` unless the socket is OPEN; `true` after a write. -/
def send (s : WSState) : Bool :=
  s.socket = some SockState.opened

/-! ### Stream session coordinator

From the `useStreamingChat` hook.  React state: `messages`, `isTyping`,
`currentStreamId`; ref: `streamingMessageRef`.  The four handlers are registered
with the dispatcher for the `llm.stream.*` message types.  Callbacks
(`onStreamComplete`, `onError`, `onMessageReceived`) perform no state mutation and
are omitted from the state transition. -/

inductive Role
  | user
  | assistant
  | system
deriving DecidableEq

structure MsgMeta where
  model : Option String
  provider : Option String
  error : Option String
deriving DecidableEq

structure ChatMessage where
  id : String
  role : Role
  content : String
  timestamp : String
  isStreaming : Bool
  metadata : MsgMeta
deriving DecidableEq

structure ChatState where
  messages : List ChatMessage
  isTyping : Bool
  currentStreamId : Option String
  streamingMessage : Option ChatMessage
deriving DecidableEq

/-- The fields of an inbound `llm.stream.*` message object used by the handlers. -/
structure StreamEventData where
  streamId : String
  content : String
  timestamp : String
  model : String
  provider : String
  error : String
deriving DecidableEq

/-- The message object built by `handleStreamStart`. -/
def newStreamMessage (d : StreamEventData) : ChatMessage :=
  { id := d.streamId
    role := Role.assistant
    content := ""
    timestamp := d.timestamp
    isStreaming := true
    metadata := { model := some d.model, provider := some d.provider, error := none } }

/-- `handleStreamStart`: unconditionally records the event's stream id as current,
sets the typing flag, stores a fresh streaming assistant message in the ref and
appends it to the message list.  There is no guard on an already-active stream. -/
def handleStreamStart (s : ChatState) (d : StreamEventData) : ChatState :=
  { s with
    currentStreamId := some d.streamId
    isTyping := true
    streamingMessage := some (newStreamMessage d)
    messages := s.messages ++ [newStreamMessage d] }

/-- `handleStreamChunk`: first line is the guard
`if (data.stream_id !== currentStreamId) return;`; then, when the ref holds a
message, the chunk is appended to the ref's content and the message with the
event's id is updated to the ref's new content. -/
def handleStreamChunk (s : ChatState) (d : StreamEventData) : ChatState :=
  if some d.streamId ≠ s.currentStreamId then s
  else
    match s.streamingMessage with
    | none => s
    | some ref =>
      let ref2 := { ref with content := ref.content ++ d.content }
      { s with
        streamingMessage := some ref2
        messages := s.messages.map fun m =>
          if m.id = d.streamId then { m with content := ref2.content } else m }

/-- `handleStreamEnd`: same id guard; then clears the typing flag and the current
stream id, and, when the ref holds a message, finalizes the message with the
event's id (`isStreaming := false`) and clears the ref. -/
def handleStreamEnd (s : ChatState) (d : StreamEventData) : ChatState :=
  if some d.streamId ≠ s.currentStreamId then s
  else
    let s1 := { s with isTyping := false, currentStreamId := none }
    match s.streamingMessage with
    | none => s1
    | some _ =>
      { s1 with
        streamingMessage := none
        messages := s1.messages.map fun m =>
          if m.id = d.streamId then { m with isStreaming := false } else m }

/-- `handleStreamError`: no id guard; clears typing flag and current id, and when
the ref holds a message, annotates the message with the event's id with the error
and clears the ref. -/
def handleStreamError (s : ChatState) (d : StreamEventData) : ChatState :=
  let s1 := { s with isTyping := false, currentStreamId := none }
  match s.streamingMessage with
  | none => s1
  | some _ =>
    { s1 with
      streamingMessage := none
      messages := s1.messages.map fun m =>
        if m.id = d.streamId then
          { m with isStreaming := false, metadata := { m.metadata with error := some d.error } }
        else m }

/-- The user message built by `sendMessage` (its id is `user_` + `Date.now()`,
modelled by the `now` argument). -/
def newUserMessage (content now : String) (meta : MsgMeta) : ChatMessage :=
  { id := "user_" ++ now
    role := Role.user
    content := content
    timestamp := now
    isStreaming := false
    metadata := meta }

/-- `sendMessage(content, options)`: appends the user message to history, then
attempts delivery through the connection manager's `send` (outcome `sendOk`).
Returns the new state, the hook's return value, and whether the error callback
fired.  The append is unconditional: there is no rollback on a failed send. -/
def sendMessage (s : ChatState) (content : String) (meta : MsgMeta) (now : String)
    (sendOk : Bool) : ChatState × Bool × Bool :=
  ({ s with messages := s.messages ++ [newUserMessage content now meta] }, sendOk, !sendOk)

/-! ### Resilient request pipeline

From `lib/apiClient.ts`.  Module-level state: `isRefreshing` and
`refreshSubscribers` (the queued continuations, here recorded by the id of the
request each would resubmit).  `AuthState` additionally records the observable
effects: how many refresh calls were issued, which requests were resubmitted with
which token, which were rejected, and whether `logout()` ran.  `pendingTrigger`
is the request whose interceptor run is awaiting the refresh it started.

Each 401 interceptor run executes atomically up to its suspension point
(`await refreshAccessToken()` or the queued promise), so a burst of concurrent
401s is embedded as a fold of `on401` followed by the refresh outcome. -/

structure AuthRequest where
  id : Nat
  retry : Bool
deriving DecidableEq

structure AuthState where
  isRefreshing : Bool
  subscribers : List Nat
  refreshCalls : Nat
  resubmissions : List (Nat × String)
  rejected : List Nat
  loggedOut : Bool
  pendingTrigger : Option Nat
deriving DecidableEq

def initialAuthState : AuthState :=
  { isRefreshing := false
    subscribers := []
    refreshCalls := 0
    resubmissions := []
    rejected := []
    loggedOut := false
    pendingTrigger := none }

/-- The response interceptor's 401 branch.  `req.retry` is the request's `_retry`
flag.  A request already retried falls through to `Promise.reject(error)`.
Otherwise the request is marked retried and: with no refresh token, `logout()`
runs and the request is rejected; while a refresh is in flight, the request
subscribes to the refresh (queued); otherwise it sets `isRefreshing` and issues
the refresh call. -/
def on401 (hasRefreshToken : Bool) (s : AuthState) (req : AuthRequest) : AuthState :=
  if req.retry then { s with rejected := s.rejected ++ [req.id] }
  else if !hasRefreshToken then
    { s with loggedOut := true, rejected := s.rejected ++ [req.id] }
  else if s.isRefreshing then { s with subscribers := s.subscribers ++ [req.id] }
  else
    { s with
      isRefreshing := true
      refreshCalls := s.refreshCalls + 1
      pendingTrigger := some req.id }

/-- `refreshAccessToken()` resolved with a token: `onTokenRefreshed` wakes every
queued continuation (each resubmits its request with the new token and the queue
is emptied), then the triggering request is resubmitted with the new token, and
the `finally` clears `isRefreshing`. -/
def refreshSuccess (token : String) (s : AuthState) : AuthState :=
  let woken := s.subscribers.map fun i => (i, token)
  let triggered :=
    match s.pendingTrigger with
    | some t => [(t, token)]
    | none => []
  { s with
    resubmissions := s.resubmissions ++ woken ++ triggered
    subscribers := []
    pendingTrigger := none
    isRefreshing := false }

/-- `refreshAccessToken()` returned null or threw: `logout()` runs, the triggering
request is rejected, and the `finally` clears `isRefreshing`.  The queued
subscribers are not flushed: the source never rejects or empties
`refreshSubscribers` on a failed refresh. -/
def refreshFailure (s : AuthState) : AuthState :=
  { s with
    loggedOut := true
    rejected := s.rejected ++ (match s.pendingTrigger with | some t => [t] | none => [])
    pendingTrigger := none
    isRefreshing := false }

/-- A burst of fresh (never-retried) requests all receiving 401 while a refresh
token exists. -/
def concurrent401s (ids : List Nat) : AuthState :=
  ids.foldl (fun s i => on401 true s { id := i, retry := false }) initialAuthState

/-- The single-flight scenario: the burst, then the one refresh call succeeding. -/
def singleFlightRun (ids : List Nat) (token : String) : AuthState :=
  refreshSuccess token (concurrent401s ids)

/-! ### Chunked-HTTP stream decoder

From `streamChatResponse` in `StreamingChatBox.tsx`.  The read loop decodes each
read into text, splits that read (and only that read) on `'\n'`, and scans the
resulting lines: a line starting with `data: ` has the rest sliced off and
trimmed; `[DONE]` completes with the accumulated response and returns; otherwise
the payload is `JSON.parse`d — a `token` object appends its content and emits the
token, a `complete` object replaces the accumulated response, completes and
returns, an `error` object throws, but the throw happens inside the same `try`
whose `catch` swallows parse failures, so it is logged and skipped; a parse
failure is skipped.  When the reader reports `done`, the loop exits and
`onComplete(fullResponse)` runs.

Reads are modelled as character lists (the `TextDecoder` with `stream: true`
already reassembles split multi-byte characters, so character boundaries are the
granularity at which network reads can split the payload). -/

/-- `chunk.split('\n')` over characters: `split` on an empty string yields one
empty piece, and a trailing separator yields a trailing empty piece. -/
def splitLines : List Char → List (List Char)
  | [] => [[]]
  | c :: rest =>
    if c = '\n' then [] :: splitLines rest
    else
      match splitLines rest with
      | [] => [[c]]
      | l :: ls => (c :: l) :: ls

/-- Match a literal pattern at the front of a character list, returning the rest
on success (`line.startsWith(pat)` plus `line.slice(pat.length)`). -/
def matchDrop : List Char → List Char → Option (List Char)
  | [], cs => some cs
  | _ :: _, [] => none
  | p :: ps, c :: cs => if c = p then matchDrop ps cs else none

def isWSp (c : Char) : Bool :=
  c = ' ' || c = '\t' || c = '\n' || c = '\r'

/-- `String.prototype.trim` on the payloads the protocol carries (ASCII
whitespace at both ends). -/
def trimChars (cs : List Char) : List Char :=
  ((cs.dropWhile isWSp).reverse.dropWhile isWSp).reverse

/-- The parsed form of a protocol payload object. -/
inductive SSEParsed
  | token (c : String)
  | complete (c : String)
  | errMsg (m : String)
deriving DecidableEq

/-- A callback emission of the decoder: `onToken` or `onComplete`. -/
inductive SSEEvent
  | tokenEv (c : String)
  | completeEv (full : String)
deriving DecidableEq

/-- The closing characters of a payload object after its content string: the
content runs to the final `"}` and may not contain a quote or a backslash
(the canonical, escape-free form the protocol emits). -/
def bodyChars : List Char → Option (List Char)
  | ['"', '}'] => some []
  | c :: rest =>
    if c = '"' || c = '\\' then none
    else (bodyChars rest).map fun l => c :: l
  | [] => none

def tokenHead : List Char := "\x7b\"type\":\"token\",\"content\":\"".toList

def completeHead : List Char := "\x7b\"type\":\"complete\",\"content\":\"".toList

def errorHead : List Char := "\x7b\"type\":\"error\",\"message\":\"".toList

/-- `JSON.parse` restricted to the protocol's payload objects, modelled as a
recognizer of their canonical serialized form
(`{"type":"token","content":"..."}` and the `complete`/`error` variants, with
escape-free content).  On these payloads it agrees with `JSON.parse`, and on any
strict fragment of one it fails exactly as `JSON.parse` does. -/
def parseSSEJson (cs : List Char) : Option SSEParsed :=
  match matchDrop tokenHead cs with
  | some rest => (bodyChars rest).map fun l => SSEParsed.token (String.mk l)
  | none =>
    match matchDrop completeHead cs with
    | some rest => (bodyChars rest).map fun l => SSEParsed.complete (String.mk l)
    | none =>
      match matchDrop errorHead cs with
      | some rest => (bodyChars rest).map fun l => SSEParsed.errMsg (String.mk l)
      | none => none

def dataHead : List Char := "data: ".toList

/-- Decoder state: the accumulated `fullResponse`, the emitted callbacks in
order, and whether the loop returned (`[DONE]` or a `complete` object). -/
structure DecState where
  fullResponse : String
  events : List SSEEvent
  finished : Bool
deriving DecidableEq

def initDecState : DecState :=
  { fullResponse := "", events := [], finished := false }

/-- One line of the inner `for` loop.  After the loop has returned, remaining
lines and reads are dead. -/
def processLine (acc : DecState) (line : List Char) : DecState :=
  if acc.finished then acc
  else
    match matchDrop dataHead line with
    | none => acc
    | some payload =>
      let data := trimChars payload
      if data = "[DONE]".toList then
        { acc with events := acc.events ++ [SSEEvent.completeEv acc.fullResponse]
                   finished := true }
      else
        match parseSSEJson data with
        | some (SSEParsed.token c) =>
          { acc with fullResponse := acc.fullResponse ++ c
                     events := acc.events ++ [SSEEvent.tokenEv c] }
        | some (SSEParsed.complete c) =>
          { acc with fullResponse := c
                     events := acc.events ++ [SSEEvent.completeEv c]
                     finished := true }
        | some (SSEParsed.errMsg _) => acc
        | none => acc

/-- One iteration of the read loop: the read is split on newlines in isolation —
no unterminated final line is carried over to the next read. -/
def processRead (acc : DecState) (chunk : String) : DecState :=
  (splitLines chunk.toList).foldl processLine acc

/-- The whole read loop over a sequence of network reads, followed by the final
`onComplete(fullResponse)` when no terminator was seen. -/
def streamDecode (reads : List String) : DecState :=
  let acc := reads.foldl processRead initDecState
  if acc.finished then acc
  else { acc with events := acc.events ++ [SSEEvent.completeEv acc.fullResponse] }

/-! ### Concrete states used by witnesses and counterexamples -/

/-- A dispatcher registration in which the first listener for `chat.message`
throws, a sibling listener for the same type follows it, and a wildcard listener
is registered. -/
def throwSubs : List (String × List Handler) :=
  [("chat.message", [{ id := 1, throws := true }, { id := 2, throws := false }]),
   ("*", [{ id := 3, throws := false }])]

/-- A hook state mid-`connect`: the socket exists and is still CONNECTING. -/
def wsConnecting : WSState :=
  { isConnected := false
    isConnecting := true
    connectionId := none
    reconnectAttempts := 0
    heartbeatActive := false
    reconnectPending := false
    lastError := false
    socket := some SockState.connecting
    socketsCreated := 1 }

/-- A connected hook state. -/
def wsOpen : WSState :=
  { wsConnecting with
    isConnected := true
    isConnecting := false
    socket := some SockState.opened }

/-- A connected hook state whose current attempt counter has reached the
configured maximum of 10. -/
def wsAtCap : WSState :=
  { isConnected := true
    isConnecting := false
    connectionId := some "c1"
    reconnectAttempts := 10
    heartbeatActive := true
    reconnectPending := false
    lastError := false
    socket := some SockState.opened
    socketsCreated := 11 }

def startEventS1 : StreamEventData :=
  { streamId := "s1", content := "", timestamp := "t0", model := "m", provider := "p", error := "" }

/-- A chat view with stream `s1` active (state `Streaming`). -/
def typingState : ChatState :=
  { messages := [newStreamMessage startEventS1]
    isTyping := true
    currentStreamId := some "s1"
    streamingMessage := some (newStreamMessage startEventS1) }

/-- A chunk event correlated to a different stream than the active one. -/
def staleEvent : StreamEventData :=
  { streamId := "s2", content := "x", timestamp := "t1", model := "m", provider := "p", error := "" }

/-- A second `stream.start`, arriving while `s1` is still streaming. -/
def secondStart : StreamEventData :=
  { streamId := "s2", content := "", timestamp := "t1", model := "m", provider := "p", error := "" }

def emptyChat : ChatState :=
  { messages := [], isTyping := false, currentStreamId := none, streamingMessage := none }

def noMeta : MsgMeta := { model := none, provider := none, error := none }

/-- A well-formed stream payload carrying one token. -/
def ssePayload : String := "data: \x7b\"type\":\"token\",\"content\":\"hi\"\x7d\n"

/-- The same payload cut mid-line into two network reads. -/
def ssePayloadA : String := "data: \x7b\"ty"

def ssePayloadB : String := "pe\":\"token\",\"content\":\"hi\"\x7d\n"

/-! ### Dispatcher theorems (C5, C10) -/

/-- Every invocation recorded by one handler group carries that group's tag. -/
theorem runGroup_tags (tag : Bool) (hs : List Handler) :
    ∀ p ∈ (runGroup tag hs).1, p.1 = tag := by
  induction hs with
  | nil => intro p hp; simp [runGroup] at hp
  | cons h t ih =>
    intro p hp
    by_cases hth : h.throws
    · simp [runGroup, hth] at hp
      simp [hp]
    · simp [runGroup, hth] at hp
      rcases hp with hp | hp
      · simp [hp]
      · exact ih p hp

/-- A group whose handlers up to the first thrower are clean invokes exactly the
clean ones and the thrower, in order, and reports the throw. -/
theorem runGroup_stops_at_throw (tag : Bool) (pre : List Handler) (h : Handler)
    (post : List Handler) (hpre : ∀ g ∈ pre, g.throws = false) (hth : h.throws = true) :
    runGroup tag (pre ++ h :: post)
      = (pre.map (fun g => (tag, g.id)) ++ [(tag, h.id)], true) := by
  induction pre with
  | nil => simp [runGroup, hth]
  | cons g t ih =>
    have hg : g.throws = false := hpre g (by simp)
    have ht : ∀ x ∈ t, x.throws = false := fun x hx => hpre x (by simp [hx])
    simp [runGroup, hg, ih ht]

/-- C10: for every registration table and message type, the dispatch trace of
`ws.onmessage` factors into the type-specific invocations (tag `false`) followed
by the wildcard invocations (tag `true`): every listener invocation for the
message's exact type precedes every wildcard-listener invocation. -/
theorem dispatch_type_before_wildcard (subs : List (String × List Handler))
    (msgType : String) :
    ∃ xs ys, onMessageDispatch subs msgType = xs ++ ys ∧
      (∀ p ∈ xs, p.1 = false) ∧ (∀ p ∈ ys, p.1 = true) := by
  by_cases hth : (runGroup false (lookupSubs subs msgType)).2
  · refine ⟨(runGroup false (lookupSubs subs msgType)).1, [], ?_, runGroup_tags _ _, by simp⟩
    simp [onMessageDispatch, dispatchLists, hth]
  · refine ⟨(runGroup false (lookupSubs subs msgType)).1,
      (runGroup true (lookupSubs subs "*")).1, ?_, runGroup_tags _ _, runGroup_tags _ _⟩
    simp [onMessageDispatch, dispatchLists, hth]

/-- C5 counterexample: with listeners 1 (throws) and 2 registered for
`chat.message` and wildcard listener 3 registered, dispatching a `chat.message`
invokes neither the sibling listener 2 nor the wildcard listener 3 — the claim
that all remaining and wildcard listeners are still invoked is false. -/
theorem throwing_listener_skips_siblings_cex :
    (false, 2) ∉ onMessageDispatch throwSubs "chat.message" ∧
    (true, 3) ∉ onMessageDispatch throwSubs "chat.message" := by decide

/-- C5 amended: when a type-specific listener throws, dispatch stops there: the
trace is the clean listeners before it plus the thrower, and no later sibling and
no wildcard listener is invoked (the exception is swallowed by the message-level
catch, so the connection itself survives). -/
theorem dispatch_stops_at_throwing_listener (pre : List Handler) (h : Handler)
    (post wildHs : List Handler) (hpre : ∀ g ∈ pre, g.throws = false)
    (hth : h.throws = true) :
    dispatchLists (pre ++ h :: post) wildHs
      = pre.map (fun g => (false, g.id)) ++ [(false, h.id)] := by
  simp [dispatchLists, runGroup_stops_at_throw false pre h post hpre hth]

/-- C5 amended, witnessed on a concrete registration: listener 2 throws after
clean listener 1; listener 3 (same type) and wildcard listener 4 are skipped. -/
theorem dispatch_stops_at_throwing_listener_witness :
    dispatchLists
        ([{ id := 1, throws := false }] ++ { id := 2, throws := true } ::
          [{ id := 3, throws := false }])
        [{ id := 4, throws := false }]
      = [(false, 1), (false, 2)] :=
  dispatch_stops_at_throwing_listener [{ id := 1, throws := false }]
    { id := 2, throws := true } [{ id := 3, throws := false }]
    [{ id := 4, throws := false }] (by decide) rfl

/-! ### Connection-manager theorems (C6, C7) -/

/-- C6 counterexample: calling `connect()` while the socket is still CONNECTING
evaluates `new WebSocket(...)` again — an additional underlying socket is
created, so the call is not idempotent in the `Connecting` state. -/
theorem connect_while_connecting_cex :
    (connect wsConnecting).socketsCreated ≠ wsConnecting.socketsCreated := by decide

/-- C6 amended: `connect()` is idempotent only while `Connected` (the guard tests
`readyState === OPEN`); while `Connecting` the guard does not fire and a second
underlying socket is created, replacing the first. -/
theorem connect_idempotent_only_when_open (s : WSState) :
    (s.socket = some SockState.opened → connect s = s) ∧
    (s.socket = some SockState.connecting →
      (connect s).socketsCreated = s.socketsCreated + 1 ∧
        (connect s).socket = some SockState.connecting) := by
  constructor
  · intro h
    simp [connect, h]
  · intro h
    simp [connect, h]

/-- C6 amended, witnessed: a no-op on an OPEN socket, a second socket on a
CONNECTING one. -/
theorem connect_idempotent_only_when_open_witness :
    connect wsOpen = wsOpen ∧
    ((connect wsConnecting).socketsCreated = wsConnecting.socketsCreated + 1 ∧
      (connect wsConnecting).socket = some SockState.connecting) :=
  ⟨(connect_idempotent_only_when_open wsOpen).1 rfl,
   (connect_idempotent_only_when_open wsConnecting).2 rfl⟩

/-- C7: failing input, evaluated.  With `maxReconnectAttempts = 10` and the
current attempt counter already at 10, an unclean close still schedules a
reconnection after the fixed 3000 ms interval, and the timer firing creates yet
another socket.  The guard in `ws.onclose` compares `state.reconnectAttempts`
from the `connect` closure — `0`, the value at the render that created the
callback (`useCallback`'s dependency list omits `state`) — never the current
counter, so the attempt cap is never enforced. -/
theorem reconnect_cap_not_enforced :
    wsAtCap.reconnectAttempts = 10 ∧
    (onclose 3000 10 0 false wsAtCap).2 = some 3000 ∧
    (reconnectFire (onclose 3000 10 0 false wsAtCap).1).socketsCreated
      = wsAtCap.socketsCreated + 1 := by decide

/-! ### Stream-session-coordinator theorems (C2, C3, C9) -/

/-- C2: a `stream.chunk` or `stream.end` event whose stream id differs from the
active session's id is a no-op: the state — message list, accumulated content,
current stream id, typing flag — is returned unchanged. -/
theorem stale_stream_event_noop (s : ChatState) (d : StreamEventData)
    (h : some d.streamId ≠ s.currentStreamId) :
    handleStreamChunk s d = s ∧ handleStreamEnd s d = s := by
  constructor
  · simp [handleStreamChunk, h]
  · simp [handleStreamEnd, h]

/-- C2, witnessed: a chunk/end for stream `s2` leaves the view streaming `s1`
untouched. -/
theorem stale_stream_event_noop_witness :
    handleStreamChunk typingState staleEvent = typingState ∧
    handleStreamEnd typingState staleEvent = typingState :=
  stale_stream_event_noop typingState staleEvent (by decide)

/-- C3 counterexample: a `stream.start` for `s2` arriving while `s1` is streaming
is not ignored — it appends a second assistant message and changes the active
stream id. -/
theorem stream_start_while_streaming_cex :
    ¬ ((handleStreamStart typingState secondStart).messages.length
          = typingState.messages.length ∧
        (handleStreamStart typingState secondStart).currentStreamId
          = typingState.currentStreamId) := by decide

/-- C3 amended: `stream.start` is processed unconditionally, in every state: it
appends one new streaming assistant message and replaces the active stream id
with the event's id — a start received while `Streaming` supersedes the active
session rather than being ignored. -/
theorem stream_start_supersedes (s : ChatState) (d : StreamEventData) :
    (handleStreamStart s d).currentStreamId = some d.streamId ∧
    (handleStreamStart s d).messages = s.messages ++ [newStreamMessage d] ∧
    (handleStreamStart s d).isTyping = true ∧
    (newStreamMessage d).role = Role.assistant ∧
    (newStreamMessage d).isStreaming = true := by
  refine ⟨rfl, rfl, rfl, rfl, rfl⟩

/-- C9: `sendMessage` appends the finalized user message to history before and
independently of transport delivery; when the transport send returns `false`, the
hook returns `false` and the error callback fires, but the appended user message
is still in history (no rollback). -/
theorem sendMessage_appends_before_transport (s : ChatState) (content : String)
    (meta : MsgMeta) (now : String) (sendOk : Bool) :
    (sendMessage s content meta now sendOk).1.messages
      = s.messages ++ [newUserMessage content now meta] ∧
    (newUserMessage content now meta).role = Role.user ∧
    (newUserMessage content now meta).content = content ∧
    (sendMessage s content meta now sendOk).2.1 = sendOk ∧
    (sendOk = false →
      (sendMessage s content meta now sendOk).2.1 = false ∧
      (sendMessage s content meta now sendOk).2.2 = true ∧
      (sendMessage s content meta now sendOk).1.messages
        = s.messages ++ [newUserMessage content now meta]) := by
  refine ⟨rfl, rfl, rfl, rfl, fun h => ?_⟩
  subst h
  exact ⟨rfl, rfl, rfl⟩

/-- C9, witnessed on a failed send from an empty view: the user message is in
history, the hook returned `false`, the error callback fired. -/
theorem sendMessage_appends_before_transport_witness :
    (sendMessage emptyChat "Hello" noMeta "100" false).1.messages
      = emptyChat.messages ++ [newUserMessage "Hello" "100" noMeta] ∧
    (newUserMessage "Hello" "100" noMeta).role = Role.user ∧
    (sendMessage emptyChat "Hello" noMeta "100" false).2.1 = false ∧
    (sendMessage emptyChat "Hello" noMeta "100" false).2.2 = true :=
  ⟨(sendMessage_appends_before_transport emptyChat "Hello" noMeta "100" false).1,
   (sendMessage_appends_before_transport emptyChat "Hello" noMeta "100" false).2.1,
   ((sendMessage_appends_before_transport emptyChat "Hello" noMeta "100" false).2.2.2.2 rfl).1,
   ((sendMessage_appends_before_transport emptyChat "Hello" noMeta "100" false).2.2.2.2 rfl).2.1⟩

/-! ### Request-pipeline theorems (C1, C8) -/

/-- While a refresh is in flight, every further fresh 401 only enqueues its
request: a burst folds to appending the requests' ids to the waiter queue, with
no further refresh call and no other state change. -/
theorem foldl_on401_refreshing (ids : List Nat) (s : AuthState)
    (h : s.isRefreshing = true) :
    ids.foldl (fun s i => on401 true s { id := i, retry := false }) s
      = { s with subscribers := s.subscribers ++ ids } := by
  induction ids generalizing s with
  | nil => simp
  | cons i rest ih =>
    have e1 : on401 true s { id := i, retry := false }
        = { s with subscribers := s.subscribers ++ [i] } := by
      simp [on401, h]
    rw [List.foldl_cons, e1, ih { s with subscribers := s.subscribers ++ [i] } h]
    simp

/-- The state after a burst of fresh concurrent 401s: one refresh call in flight,
triggered by the first request, all the others queued. -/
theorem concurrent401s_eq (i0 : Nat) (rest : List Nat) :
    concurrent401s (i0 :: rest)
      = { initialAuthState with
          isRefreshing := true
          refreshCalls := 1
          pendingTrigger := some i0
          subscribers := rest } := by
  have e0 : on401 true initialAuthState { id := i0, retry := false }
      = { initialAuthState with
          isRefreshing := true, refreshCalls := 1, pendingTrigger := some i0 } := by
    simp [on401, initialAuthState]
  unfold concurrent401s
  rw [List.foldl_cons, e0, foldl_on401_refreshing rest _ rfl]
  rfl

/-- Counting a pair in the image of the wake-up map counts the request id. -/
theorem count_pair_map (l : List Nat) (tk : String) (i : Nat) :
    ((l.map fun j => (j, tk)).count (i, tk)) = l.count i := by
  induction l with
  | nil => rfl
  | cons a t ih => simp [List.count_cons, ih, Prod.ext_iff]

theorem count_notMem_zero (l : List Nat) (i : Nat) (h : i ∉ l) : l.count i = 0 := by
  induction l with
  | nil => rfl
  | cons a t ih =>
    simp at h
    simp [List.count_cons, ih h.2, Ne.symm h.1]

theorem count_nodup_mem (l : List Nat) (i : Nat) (hl : l.Nodup) (h : i ∈ l) :
    l.count i = 1 := by
  induction l with
  | nil => simp at h
  | cons a t ih =>
    rcases List.mem_cons.mp h with h1 | h1
    · subst h1
      simp [List.count_cons, count_notMem_zero t i (List.nodup_cons.mp hl).1]
    · have hne : i ≠ a := by
        intro he
        subst he
        exact (List.nodup_cons.mp hl).1 h1
      simp [List.count_cons, ih (List.nodup_cons.mp hl).2 h1, Ne.symm hne]

theorem count_pair_singleton (i i0 : Nat) (tk : String) (h : i ≠ i0) :
    (([(i0, tk)] : List (Nat × String)).count (i, tk)) = 0 := by
  simp [List.count_cons, Prod.ext_iff, Ne.symm h]

/-- C1: for every non-empty burst of distinct concurrent requests that each
receive a 401 while a refresh token exists and none has been retried, exactly one
refresh call is issued; once the refresh succeeds, every request of the burst is
resubmitted exactly once with the new access token (and nothing else is
resubmitted), and the refresh-in-flight flag is cleared. -/
theorem single_flight_refresh (ids : List Nat) (token : String)
    (hne : ids ≠ []) (hnd : ids.Nodup) :
    (singleFlightRun ids token).refreshCalls = 1 ∧
    (singleFlightRun ids token).isRefreshing = false ∧
    (singleFlightRun ids token).resubmissions.length = ids.length ∧
    ∀ i ∈ ids, (singleFlightRun ids token).resubmissions.count (i, token) = 1 := by
  cases ids with
  | nil => exact absurd rfl hne
  | cons i0 rest =>
    have hrun : singleFlightRun (i0 :: rest) token
        = { initialAuthState with
            resubmissions := (rest.map fun i => (i, token)) ++ [(i0, token)]
            refreshCalls := 1 } := by
      unfold singleFlightRun
      rw [concurrent401s_eq]
      simp [refreshSuccess, initialAuthState]
    rw [hrun]
    have hnotmem : i0 ∉ rest := (List.nodup_cons.mp hnd).1
    have hndrest : rest.Nodup := (List.nodup_cons.mp hnd).2
    refine ⟨rfl, rfl, by simp, ?_⟩
    intro i hi
    rcases List.mem_cons.mp hi with hi0 | hirest
    · subst hi0
      rw [List.count_append, count_pair_map, count_notMem_zero rest i hnotmem]
      simp
    · have hne0 : i ≠ i0 := by
        intro he
        subst he
        exact hnotmem hirest
      rw [List.count_append, count_pair_map, count_nodup_mem rest i hndrest hirest,
        count_pair_singleton i i0 token hne0]

/-- C1, witnessed on a burst of three concurrent requests: one refresh call, and
each of the three requests resubmitted exactly once with the new token. -/
theorem single_flight_refresh_witness :
    (singleFlightRun [1, 2, 3] "tk").refreshCalls = 1 ∧
    (singleFlightRun [1, 2, 3] "tk").isRefreshing = false ∧
    (singleFlightRun [1, 2, 3] "tk").resubmissions.length = ([1, 2, 3] : List Nat).length ∧
    ∀ i ∈ ([1, 2, 3] : List Nat),
      (singleFlightRun [1, 2, 3] "tk").resubmissions.count (i, "tk") = 1 :=
  single_flight_refresh [1, 2, 3] "tk" (by decide) (by decide)

/-- C8 counterexample: a 401 on a request whose `_retry` flag is already set is
rejected without a refresh — but `logout()` is not called, so the session is not
invalidated, contrary to the claim. -/
theorem retried_401_no_logout_cex :
    (on401 true initialAuthState { id := 1, retry := true }).rejected = [1] ∧
    (on401 true initialAuthState { id := 1, retry := true }).refreshCalls = 0 ∧
    ¬ (on401 true initialAuthState { id := 1, retry := true }).loggedOut = true := by
  decide

/-- C8 amended: a 401 on an already-retried request is terminal for that request
only: no refresh is started, nothing is queued, the request is rejected, and the
credential state — including the logged-out flag — is otherwise unchanged (the
interceptor falls through to `Promise.reject` without calling `logout()`). -/
theorem retried_401_terminal (hasRT : Bool) (s : AuthState) (req : AuthRequest)
    (h : req.retry = true) :
    on401 hasRT s req = { s with rejected := s.rejected ++ [req.id] } := by
  simp [on401, h]

/-- C8 amended, witnessed: the already-retried request 2 is only rejected. -/
theorem retried_401_terminal_witness :
    on401 true initialAuthState { id := 2, retry := true }
      = { initialAuthState with rejected := [2] } :=
  retried_401_terminal true initialAuthState { id := 2, retry := true } rfl

/-! ### Chunked-HTTP decoder theorem (C4) -/

/-- C4: failing input, evaluated.  The token payload
`data: {"type":"token","content":"hi"}\n` fed whole decodes to the token `hi`
followed by completion with `hi`; the same payload split mid-line into the reads
`data: {"ty` and `pe":"token","content":"hi"}\n` decodes to no token at all and
completion with the empty response — each read is split on newlines in
isolation, so the first fragment fails to parse and the second never matches the
`data: ` marker.  The decoder is therefore not invariant under read boundaries,
against the documented buffer-until-newline requirement. -/
theorem decoder_split_divergence :
    ssePayloadA ++ ssePayloadB = ssePayload ∧
    (streamDecode [ssePayload]).events
      = [SSEEvent.tokenEv "hi", SSEEvent.completeEv "hi"] ∧
    (streamDecode [ssePayloadA, ssePayloadB]).events = [SSEEvent.completeEv ""] ∧
    streamDecode [ssePayloadA, ssePayloadB] ≠ streamDecode [ssePayload] := by
  decide

end LumenAI
